/- Verification development for the video/thumbnail upload pipeline of the
   learn-file-storage-s3-golang-starter repository.

   The Go handlers are shallowly embedded as pure Lean functions over an
   explicit environment describing the outcome of every external-collaborator
   call (auth, record store, object store, subprocesses).  Each handler
   produces a `Trace`: the list of responses written to the client and the
   list of observable collaborator/file events, in program order.  The
   float64 arithmetic of the aspect-ratio classifier is modelled bit-exactly
   by dyadic rationals with IEEE-754 round-to-nearest-even (`Dyadic`,
   `classifyRatioFloat`, `getVideoAspectRatioF` below); the pipeline model
   also carries an exact-rational abstraction of the classifier
   (`classifyRatio`), of which the pipeline-level claims use only the shape
   and the output strings. -/

import Mathlib

/-- Model of `database.Video`: `ID`, `CreatedAt`, `UpdatedAt`, `ThumbnailURL`,
    `VideoURL`, plus the embedded `CreateVideoParams` flattened into `userID`
    and `title` (the database package is an external collaborator; the
    handlers only read `UserID` and copy the rest verbatim).  Identifiers
    (uuid.UUID) are modelled as naturals, timestamps as naturals. -/
structure VideoRecord where
  id : Nat
  createdAt : Nat
  updatedAt : Nat
  thumbnailURL : Option String
  videoURL : Option String
  userID : Nat
  title : String
deriving DecidableEq, Repr

/-- The fields of `apiConfig` the embedded handlers read. -/
structure ApiConfig where
  s3Bucket : String
  s3Region : String
  assetsRoot : String
deriving DecidableEq, Repr

/-- One call to `respondWithError` (status, message) or `respondWithJSON`
    (status, payload record). -/
inductive Response where
  | error (status : Nat) (msg : String)
  | json (status : Nat) (video : VideoRecord)
deriving DecidableEq, Repr

/-- HTTP status carried by a response. -/
def Response.status : Response → Nat
  | .error s _ => s
  | .json s _ => s

/-- Whether the response is an error response. -/
def Response.isErrorResponse : Response → Bool
  | .error _ _ => true
  | .json _ _ => false

/-- Observable collaborator and file events, in program order. -/
inductive Event where
  | parseForm
  | formFileRead
  | createTemp
  | copyToTemp (bytes : Nat)
  | seekTemp
  | probe
  | remux
  | openFastStart
  | createAssetFile
  | copyToAssetFile
  | putObject (bucket key : String)
  | updateVideo (rec : VideoRecord)
  | presign (bucket key : String) (ttlMinutes : Nat)
deriving DecidableEq, Repr

/-- Events that perform file I/O in the handler itself.  Multipart-form
    parsing (`parseForm`, `formFileRead`) is the HTTP framework's reading of
    the request body, a delegated collaborator step, not handler file I/O. -/
def Event.isFileTouch : Event → Bool
  | .parseForm => false
  | .formFileRead => false
  | .putObject _ _ => false
  | .updateVideo _ => false
  | .presign _ _ _ => false
  | _ => true

/-- The observable outcome of one handler run: responses written (in order)
    and collaborator/file events performed (in order). -/
structure Trace where
  responses : List Response
  events : List Event
deriving DecidableEq, Repr

deriving instance DecidableEq for Except

/-- `true` iff some error response was written. -/
def Trace.hasErrorResponse (t : Trace) : Bool :=
  t.responses.any Response.isErrorResponse

/-- Model of Go `strings.Split(s, string(sep))` on the character list of `s`:
    splits at every occurrence of `sep`; `n` occurrences yield `n+1` parts. -/
def goSplitOn (sep : Char) : List Char → List (List Char)
  | [] => [[]]
  | c :: rest =>
    let r := goSplitOn sep rest
    if c = sep then [] :: r else (c :: r.headD []) :: r.tail

/-- `strings.Split(s, ",")` as used by `dbVideoToSignedVideo`. -/
def goSplitComma (s : String) : List String :=
  (goSplitOn ',' s.data).map String.mk

/-- Locator encoding, from `handlerUploadVideo`:
    `videoURL := fmt.Sprintf("%s,%s", cfg.s3Bucket, key)`. -/
def encodeLocator (container key : String) : String :=
  container ++ "," ++ key

/-- Locator decoding, the splitting step of `dbVideoToSignedVideo`:
    `parts := strings.Split(*video.VideoURL, ",")`, failing with
    "Malformed video URL" unless exactly two parts result. -/
def decodeLocator (locator : String) : Except String (String × String) :=
  let parts := goSplitComma locator
  if parts.length == 2 then .ok (parts.getD 0 "", parts.getD 1 "")
  else .error "Malformed video URL"

theorem goSplitOn_ne_nil (sep : Char) (l : List Char) : goSplitOn sep l ≠ [] := by
  cases l with
  | nil => simp [goSplitOn]
  | cons c rest =>
    simp only [goSplitOn]
    by_cases h : c = sep <;> simp [h]

theorem goSplitOn_length (sep : Char) (l : List Char) :
    (goSplitOn sep l).length = l.count sep + 1 := by
  induction l with
  | nil => simp [goSplitOn]
  | cons c rest ih =>
    rcases hrec : goSplitOn sep rest with _ | ⟨part, parts⟩
    · exact absurd hrec (goSplitOn_ne_nil sep rest)
    · rw [hrec] at ih
      simp only [goSplitOn, hrec]
      simp only [List.length_cons] at ih
      by_cases h : c = sep
      · subst h
        rw [if_pos rfl, List.count_cons_self]
        simp only [List.length_cons]
        omega
      · rw [if_neg h, List.count_cons_of_ne (Ne.symm h)]
        simp only [List.headD_cons, List.tail_cons, List.length_cons]
        omega

theorem goSplitOn_of_not_mem (sep : Char) (l : List Char) (h : sep ∉ l) :
    goSplitOn sep l = [l] := by
  induction l with
  | nil => simp [goSplitOn]
  | cons c rest ih =>
    have hc : c ≠ sep := fun hh => h (hh ▸ List.mem_cons_self c rest)
    have hrest : sep ∉ rest := fun hh => h (List.mem_cons_of_mem c hh)
    simp [goSplitOn, ih hrest, hc]

theorem goSplitOn_append_sep (sep : Char) (a b : List Char) (h : sep ∉ a) :
    goSplitOn sep (a ++ sep :: b) = a :: goSplitOn sep b := by
  induction a with
  | nil => simp [goSplitOn]
  | cons c rest ih =>
    have hc : c ≠ sep := fun hh => h (hh ▸ List.mem_cons_self c rest)
    have hrest : sep ∉ rest := fun hh => h (List.mem_cons_of_mem c hh)
    rw [List.cons_append]
    simp only [goSplitOn]
    rw [ih hrest]
    simp [hc]

theorem string_mk_data (s : String) : String.mk s.data = s := rfl

theorem string_data_append (s t : String) : (s ++ t).data = s.data ++ t.data := rfl

theorem encodeLocator_data (container key : String) :
    (encodeLocator container key).data = container.data ++ ',' :: key.data := by
  show ((container ++ ",") ++ key).data = _
  rw [string_data_append, string_data_append]
  rw [show ("," : String).data = [','] from rfl, List.append_assoc]
  rfl

theorem decodeLocator_encodeLocator (container key : String)
    (hc : ',' ∉ container.data) (hk : ',' ∉ key.data) :
    decodeLocator (encodeLocator container key) = .ok (container, key) := by
  simp only [decodeLocator, goSplitComma, encodeLocator_data]
  rw [goSplitOn_append_sep ',' container.data key.data hc,
      goSplitOn_of_not_mem ',' key.data hk]
  simp [string_mk_data]

/-- Model of Go `math.Abs` over the exact rationals standing in for float64. -/
def mathAbs (x : ℚ) : ℚ := if x < 0 then -x else x

theorem mathAbs_eq_abs (x : ℚ) : mathAbs x = |x| := by
  unfold mathAbs
  by_cases h : x < 0
  · rw [if_pos h, abs_of_neg h]
  · rw [if_neg h, abs_of_nonneg (le_of_not_lt h)]

/-- One entry of the ffprobe `streams` array: the decoded `width`/`height`
    integer fields. -/
structure StreamDim where
  width : Int
  height : Int
deriving DecidableEq, Repr

/-- Outcome of running and parsing the ffprobe subprocess, the external input
    of `getVideoAspectRatio`: the process can exit non-zero, its output can
    fail to unmarshal, or it yields a (possibly empty) stream list. -/
inductive FfprobeResult where
  | runError
  | parseError
  | streams (l : List StreamDim)
deriving DecidableEq, Repr

/-- The classification arithmetic of `getVideoAspectRatio` with float64
    division and `math.Abs` ABSTRACTED as exact rational arithmetic:
    tolerance `0.1`, reference ratios `16/9` and `9/16`, landscape checked
    first, strict `<` comparisons.  This abstraction diverges from the
    program at ratios within a rounding error of the tolerance boundary
    (e.g. `151/90`); the bit-exact float64 classifier is
    `classifyRatioFloat` below.  The pipeline model uses this version only
    as a source of classification strings, and the claims proved through it
    depend only on the error/success shape and the four possible outputs. -/
def classifyRatio (aspectRatio : ℚ) : String :=
  let tolerance : ℚ := 1/10
  let landscapeRatio : ℚ := 16/9
  let portraitRatio : ℚ := 9/16
  if mathAbs (aspectRatio - landscapeRatio) < tolerance then "landscape"
  else if mathAbs (aspectRatio - portraitRatio) < tolerance then "portrait"
  else "other"

/-- Model of `getVideoAspectRatio` over the rational abstraction:
    probe/parse failures propagate as errors, an empty stream list yields
    `""` without error, otherwise the first stream's `width/height` ratio is
    classified.  The float64-exact counterpart is `getVideoAspectRatioF`. -/
def getVideoAspectRatio (probeResult : FfprobeResult) : Except Unit String :=
  match probeResult with
  | .runError => .error ()
  | .parseError => .error ()
  | .streams [] => .ok ""
  | .streams (s :: _) => .ok (classifyRatio ((s.width : ℚ) / (s.height : ℚ)))

theorem classifyRatio_cases (r : ℚ) :
    classifyRatio r = "landscape" ∨ classifyRatio r = "portrait" ∨
      classifyRatio r = "other" := by
  simp only [classifyRatio]
  split
  · exact Or.inl rfl
  · split
    · exact Or.inr (Or.inl rfl)
    · exact Or.inr (Or.inr rfl)

theorem getVideoAspectRatio_ok_cases (probeResult : FfprobeResult) (a : String)
    (h : getVideoAspectRatio probeResult = .ok a) :
    a = "" ∨ a = "landscape" ∨ a = "portrait" ∨ a = "other" := by
  cases probeResult with
  | runError => exact absurd h (by simp [getVideoAspectRatio])
  | parseError => exact absurd h (by simp [getVideoAspectRatio])
  | streams l =>
    cases l with
    | nil =>
      simp only [getVideoAspectRatio, Except.ok.injEq] at h
      exact Or.inl h.symm
    | cons s rest =>
      simp only [getVideoAspectRatio, Except.ok.injEq] at h
      subst h
      exact Or.inr (classifyRatio_cases _)

theorem getVideoAspectRatio_ok_no_comma (probeResult : FfprobeResult) (a : String)
    (h : getVideoAspectRatio probeResult = .ok a) : ',' ∉ a.data := by
  rcases getVideoAspectRatio_ok_cases probeResult a h with h' | h' | h' | h' <;>
    subst h' <;> decide

/-- Floor of log2 by structural fuel recursion (one unit of fuel per
    halving, so fuel `n` always suffices); kernel-evaluable, unlike the
    well-founded `Nat.log2`.  `log2fuel` returns 0 for 0 and 1. -/
def log2fuel : Nat → Nat → Nat
  | 0, _ => 0
  | fuel + 1, n => if n ≤ 1 then 0 else log2fuel fuel (n / 2) + 1

/-- `natLog2 n = Nat.log2 n`: the exponent of the highest set bit. -/
def natLog2 (n : Nat) : Nat := log2fuel n n

/-- An IEEE-754 binary64 value represented exactly: the value is
    `m * 2^e` with `|m| < 2^53`.  Every quantity in the classifier is far
    from the overflow and subnormal ranges, so exponent bounds need no
    modelling. -/
structure Dyadic where
  m : Int
  e : Int
deriving DecidableEq, Repr

/-- Round a natural significand to at most 53 bits, round-to-nearest with
    ties to even; returns the rounded significand and the count of dropped
    low bits. -/
def roundSig53 (n : Nat) : Nat × Nat :=
  let bits := natLog2 n + 1
  if bits ≤ 53 then (n, 0)
  else
    let s := bits - 53
    let q := n / 2 ^ s
    let r := n % 2 ^ s
    let half := 2 ^ (s - 1)
    if half < r then (q + 1, s)
    else if r < half then (q, s)
    else if q % 2 = 0 then (q, s) else (q + 1, s)

/-- Round the exact value `m * 2^e` to the nearest binary64 value. -/
def roundDyadic (m e : Int) : Dyadic :=
  if m = 0 then ⟨0, 0⟩
  else
    let p := roundSig53 m.natAbs
    ⟨if m < 0 then -(p.1 : Int) else (p.1 : Int), e + (p.2 : Int)⟩

/-- Numerator of `a/b` scaled by `2^t` (positive part of the exponent). -/
def divScaleNum (a : Nat) (t : Int) : Nat := a * 2 ^ t.toNat

/-- Denominator of `a/b` scaled by `2^(-t)` (negative part). -/
def divScaleDen (b : Nat) (t : Int) : Nat := b * 2 ^ (-t).toNat

/-- The scaling exponent `t` placing `a * 2^t / b` in `[2^52, 2^53)`:
    `t = 52 - floor(log2 (a/b))`, found by testing the two candidates the
    integer log2 difference allows. -/
def divScale (a b : Nat) : Int :=
  let t0 : Int := 52 - ((natLog2 a : Int) - (natLog2 b : Int))
  if 2 ^ 52 * divScaleDen b t0 ≤ divScaleNum a t0 ∧
      divScaleNum a t0 < 2 ^ 53 * divScaleDen b t0 then t0 else t0 + 1

/-- Correctly rounded binary64 quotient of two naturals, i.e.
    `float64(a) / float64(b)` for exactly representable `a`, `b`: the
    53-bit significand is the integer quotient of the scaled fraction,
    rounded to nearest with ties to even via the remainder.  A zero
    denominator falls back to the value 0 (Go produces Inf or NaN there,
    and both, like 0, make the classifier answer "other"). -/
def divRound53 (a b : Nat) : Dyadic :=
  if a = 0 ∨ b = 0 then ⟨0, 0⟩
  else
    let t := divScale a b
    let num := divScaleNum a t
    let den := divScaleDen b t
    let q := num / den
    let r := num % den
    let m := if den < 2 * r then q + 1
             else if 2 * r < den then q
             else if q % 2 = 0 then q else q + 1
    ⟨(m : Int), -t⟩

/-- IEEE binary64 subtraction: the exact difference of the two values,
    rounded to the nearest binary64 value. -/
def floatSub (x y : Dyadic) : Dyadic :=
  let e := min x.e y.e
  roundDyadic (x.m * 2 ^ (x.e - e).toNat - y.m * 2 ^ (y.e - e).toNat) e

/-- `math.Abs`: exact on floats. -/
def floatAbs (x : Dyadic) : Dyadic := ⟨(x.m.natAbs : Int), x.e⟩

/-- Float comparison `<`: exact comparison of the represented values. -/
def floatLt (x y : Dyadic) : Bool :=
  let e := min x.e y.e
  decide (x.m * 2 ^ (x.e - e).toNat < y.m * 2 ^ (y.e - e).toNat)

/-- The classification arithmetic of `getVideoAspectRatio` with bit-exact
    float64 semantics: `tolerance` is the Go constant `0.1` (the nearest
    double, equal to the correctly rounded `1/10`), `landscapeRatio` and
    `portraitRatio` are the computed `float64(16)/float64(9)` and
    `float64(9)/float64(16)`, and the comparisons are float64 comparisons
    of the rounded differences. -/
def classifyRatioFloat (aspectRatio : Dyadic) : String :=
  let tolerance := divRound53 1 10
  let landscapeRatio := divRound53 16 9
  let portraitRatio := divRound53 9 16
  if floatLt (floatAbs (floatSub aspectRatio landscapeRatio)) tolerance then
    "landscape"
  else if floatLt (floatAbs (floatSub aspectRatio portraitRatio)) tolerance then
    "portrait"
  else "other"

/-- `float64(a) / float64(b)` for the stream's integer dimensions
    (sign handled separately; ffprobe dimensions are nonnegative). -/
def floatDivInt (a b : Int) : Dyadic :=
  let d := divRound53 a.natAbs b.natAbs
  if (a < 0) ≠ (b < 0) then ⟨-d.m, d.e⟩ else d

/-- `getVideoAspectRatio` with the bit-exact float64 classifier. -/
def getVideoAspectRatioF : FfprobeResult → Except Unit String
  | .runError => .error ()
  | .parseError => .error ()
  | .streams [] => .ok ""
  | .streams (s :: _) => .ok (classifyRatioFloat (floatDivInt s.width s.height))

/-- Characters Go's mime package accepts in a media-type token (apostrophe
    and backquote, legal in RFC tokens, are omitted: no claim involves them
    and the handlers only compare against plain alphabetic types). -/
def isTokenChar (c : Char) : Bool :=
  c.isAlphanum || c = '!' || c = '#' || c = '$' || c = '&' || c = '-' ||
    c = '.' || c = '^' || c = '_' || c = '~' || c = '+' || c = '*' || c = '%'

def isSpaceChar (c : Char) : Bool :=
  c = ' ' || c = '\t' || c = '\n' || c = '\r'

def trimSpaces (l : List Char) : List Char :=
  ((l.dropWhile isSpaceChar).reverse.dropWhile isSpaceChar).reverse

/-- Model of Go `mime.ParseMediaType` restricted to what the handlers use:
    the portion before the first `;` is whitespace-trimmed and lowercased,
    then validated as `token/token`; the parameter list is dropped (the
    handlers discard it).  Returns the parsed media type and an error flag:
    on error Go returns an empty media type, modelled as `("", true)`. -/
def parseMediaType (v : String) : String × Bool :=
  let base := trimSpaces (v.data.takeWhile (fun c => c != ';'))
  let lowered := base.map Char.toLower
  match goSplitOn '/' lowered with
  | [t, sub] =>
    if t ≠ [] ∧ sub ≠ [] ∧ (t ++ sub).all isTokenChar then (String.mk lowered, false)
    else ("", true)
  | _ => ("", true)

/-- `uploadLimit := 1 << 30` from `handlerUploadVideo`. -/
def uploadLimit : Nat := 1 <<< 30

/-- Model of `http.MaxBytesReader(w, r.Body, limit)`: returns the wrapped
    reader, modelled by its underlying body size and its cap.  The source
    calls this as a bare statement and discards the returned reader. -/
def maxBytesReader (bodySize limit : Nat) : Nat × Nat := (bodySize, limit)

/-- Outcome of every external-collaborator call `handlerUploadVideo` makes,
    in program order.  `copyErr`, `seekErr` and `randErr` model the error
    results of `io.Copy`, `tempFile.Seek` and `rand.Read`, all three of which
    the source discards, so the handler below never reads them. -/
structure UploadVideoEnv where
  pathVideoID : Except Unit Nat
  bearerToken : Except Unit String
  jwtUserID : Except Unit Nat
  dbRecord : Except Unit VideoRecord
  formFile : Except Unit String
  bodySize : Nat
  copyErr : Bool
  seekErr : Bool
  createTempOk : Bool
  probe : FfprobeResult
  randErr : Bool
  randomID : String
  remuxOk : Bool
  openFastStartOk : Bool
  putObjectOk : Bool
  updateVideoOk : Bool
  presign : String → String → Except Unit String

/-- Model of `dbVideoToSignedVideo`: nil locator short-circuits; otherwise
    the locator is split on `,` (exactly two parts required) and a presigned
    URL with 10-minute expiry (`time.Duration(10)*time.Minute`) is requested
    and substituted into the returned record. -/
def dbVideoToSignedVideo (presign : String → String → Except Unit String)
    (video : VideoRecord) : Except String VideoRecord × List Event :=
  match video.videoURL with
  | none => (.ok video, [])
  | some url =>
    match decodeLocator url with
    | .error e => (.error e, [])
    | .ok (bucket, key) =>
      match presign bucket key with
      | .error _ => (.error "presign failure", [.presign bucket key 10])
      | .ok signedVideoURL =>
        (.ok { video with videoURL := some signedVideoURL },
         [.presign bucket key 10])

/-- The derived storage key,
    `key := fmt.Sprintf("%s/%s.mp4", aspectRatio, randomIDString)`. -/
def uploadKey (aspectRatio randomIDString : String) : String :=
  aspectRatio ++ "/" ++ randomIDString ++ ".mp4"

/-- `handlerUploadVideo` from `os.CreateTemp` on (after content-type
    validation).  `io.Copy` and `tempFile.Seek` results are discarded by the
    source, so control flow continues regardless of `env.copyErr` /
    `env.seekErr`; likewise `rand.Read`.  After a failed `PutObject` the
    source calls `respondWithError` WITHOUT returning, so execution falls
    through to the locator persistence and response steps. -/
def uploadVideoPipeline (cfg : ApiConfig) (env : UploadVideoEnv)
    (videoMetadata : VideoRecord) : Trace :=
  if env.createTempOk then
    match getVideoAspectRatio env.probe with
    | .error _ =>
      ⟨[.error 500 "An error occurred"],
       [.createTemp, .copyToTemp env.bodySize, .seekTemp, .probe]⟩
    | .ok aspectRatio =>
      let key := uploadKey aspectRatio env.randomID
      if env.remuxOk then
        if env.openFastStartOk then
          let ev := [Event.createTemp, .copyToTemp env.bodySize, .seekTemp,
                     .probe, .remux, .openFastStart, .putObject cfg.s3Bucket key]
          let putResponses : List Response :=
            if env.putObjectOk then [] else [.error 500 "Could not put object to S3"]
          let videoURL := encodeLocator cfg.s3Bucket key
          let updatedVid := { videoMetadata with videoURL := some videoURL }
          let ev2 := ev ++ [Event.updateVideo updatedVid]
          if env.updateVideoOk then
            match dbVideoToSignedVideo env.presign updatedVid with
            | (.error _, evs) =>
              ⟨putResponses ++ [.error 500 "An error occurred"], ev2 ++ evs⟩
            | (.ok signedVid, evs) =>
              ⟨putResponses ++ [.json 200 signedVid], ev2 ++ evs⟩
          else ⟨putResponses ++ [.error 500 "An error occurred"], ev2⟩
        else
          ⟨[.error 500 "An error occurred"],
           [.createTemp, .copyToTemp env.bodySize, .seekTemp, .probe, .remux,
            .openFastStart]⟩
      else
        ⟨[.error 500 "An error occurred"],
         [.createTemp, .copyToTemp env.bodySize, .seekTemp, .probe, .remux]⟩
  else ⟨[.error 500 "An error occurred"], [.createTemp]⟩

/-- Model of `handlerUploadVideo`.  The `http.MaxBytesReader` call's result
    is bound and discarded exactly as in the source (bare call statement), so
    the original unbounded body is what reaches the scratch-file copy.
    Source messages containing an apostrophe are written with `Could not`. -/
def handlerUploadVideo (cfg : ApiConfig) (env : UploadVideoEnv) : Trace :=
  let _limitedBody := maxBytesReader env.bodySize uploadLimit
  match env.pathVideoID with
  | .error _ => ⟨[.error 400 "Invalid ID"], []⟩
  | .ok _ =>
    match env.bearerToken with
    | .error _ => ⟨[.error 401 "Could not find JWT"], []⟩
    | .ok _ =>
      match env.jwtUserID with
      | .error _ => ⟨[.error 401 "Could not validate JWT"], []⟩
      | .ok userID =>
        match env.dbRecord with
        | .error _ => ⟨[.error 404 "Video with given ID not found"], []⟩
        | .ok videoMetadata =>
          if videoMetadata.userID != userID then
            ⟨[.error 401 "Not the video owner"], []⟩
          else
            match env.formFile with
            | .error _ =>
              ⟨[.error 500 "Error parsing multipart form"], [.formFileRead]⟩
            | .ok contentTypeHeader =>
              let pm := parseMediaType contentTypeHeader
              if pm.1 != "video/mp4" || pm.2 then
                ⟨[.error 400 "Could not verify filetype as mp4"], [.formFileRead]⟩
              else
                let t := uploadVideoPipeline cfg env videoMetadata
                ⟨t.responses, .formFileRead :: t.events⟩

/-- The subtype after the first `/`, modelling
    `strings.SplitN(mediaType, "/", 2)[1]` in `getExtensionFromHeader`. -/
def stringAfterSlash (s : String) : String :=
  String.mk ((s.data.dropWhile (fun c => c != '/')).tail)

/-- Model of `getExtensionFromHeader`: the parsed media type must be exactly
    `image/jpeg` or `image/png` (and parse without error), and the extension
    is the subtype. -/
def getExtensionFromHeader (contentTypeHeader : String) : Except Unit String :=
  let pm := parseMediaType contentTypeHeader
  if (pm.1 != "image/jpeg" && pm.1 != "image/png") || pm.2 then .error ()
  else .ok (stringAfterSlash pm.1)

/-- Outcome of every external-collaborator call `handlerUploadThumbnail`
    makes, in program order. -/
structure ThumbnailEnv where
  pathVideoID : Except Unit Nat
  bearerToken : Except Unit String
  jwtUserID : Except Unit Nat
  parseFormOk : Bool
  formFile : Except Unit String
  dbRecord : Except Unit VideoRecord
  createFileOk : Bool
  copyOk : Bool
  updateVideoOk : Bool

/-- Model of `handlerUploadThumbnail`.  Note the source parses the multipart
    form and reads the file header BEFORE fetching the record and checking
    ownership; `os.Create` and the copy to the assets file come after. -/
def handlerUploadThumbnail (_cfg : ApiConfig) (env : ThumbnailEnv) : Trace :=
  match env.pathVideoID with
  | .error _ => ⟨[.error 400 "Invalid ID"], []⟩
  | .ok videoID =>
    match env.bearerToken with
    | .error _ => ⟨[.error 401 "Could not find JWT"], []⟩
    | .ok _ =>
      match env.jwtUserID with
      | .error _ => ⟨[.error 401 "Could not validate JWT"], []⟩
      | .ok userID =>
        if env.parseFormOk then
          match env.formFile with
          | .error _ =>
            ⟨[.error 500 "Error reading thumbnail"], [.parseForm, .formFileRead]⟩
          | .ok contentTypeHeader =>
            match getExtensionFromHeader contentTypeHeader with
            | .error _ =>
              ⟨[.error 400 "Wrong header"], [.parseForm, .formFileRead]⟩
            | .ok extension =>
              let filename := toString videoID ++ "." ++ extension
              match env.dbRecord with
              | .error _ =>
                ⟨[.error 404 "Video with given ID not found"],
                 [.parseForm, .formFileRead]⟩
              | .ok videoMetadata =>
                if videoMetadata.userID != userID then
                  ⟨[.error 401 "Not the video owner"],
                   [.parseForm, .formFileRead]⟩
                else
                  if env.createFileOk then
                    if env.copyOk then
                      let thumbnailUrl := "/assets/" ++ filename
                      let video : VideoRecord :=
                        { id := videoID, createdAt := videoMetadata.createdAt,
                          updatedAt := videoMetadata.updatedAt,
                          thumbnailURL := some thumbnailUrl,
                          videoURL := videoMetadata.videoURL,
                          userID := videoMetadata.userID,
                          title := videoMetadata.title }
                      if env.updateVideoOk then
                        ⟨[.json 200 video],
                         [.parseForm, .formFileRead, .createAssetFile,
                          .copyToAssetFile, .updateVideo video]⟩
                      else
                        ⟨[.error 500 "Error updating video in db"],
                         [.parseForm, .formFileRead, .createAssetFile,
                          .copyToAssetFile, .updateVideo video]⟩
                    else
                      ⟨[.error 500 "Error creating file"],
                       [.parseForm, .formFileRead, .createAssetFile,
                        .copyToAssetFile]⟩
                  else
                    ⟨[.error 500 "Error creating file"],
                     [.parseForm, .formFileRead, .createAssetFile]⟩
        else ⟨[.error 500 "Error parsing multipart form"], [.parseForm]⟩

theorem handlerUploadVideo_to_pipeline (cfg : ApiConfig) (env : UploadVideoEnv)
    (vid userID : Nat) (tok ct : String) (rec : VideoRecord)
    (h1 : env.pathVideoID = .ok vid) (h2 : env.bearerToken = .ok tok)
    (h3 : env.jwtUserID = .ok userID) (h4 : env.dbRecord = .ok rec)
    (h5 : rec.userID = userID) (h6 : env.formFile = .ok ct)
    (h7 : parseMediaType ct = ("video/mp4", false)) :
    handlerUploadVideo cfg env =
      ⟨(uploadVideoPipeline cfg env rec).responses,
       .formFileRead :: (uploadVideoPipeline cfg env rec).events⟩ := by
  simp [handlerUploadVideo, h1, h2, h3, h4, h5, h6, h7]

theorem uploadKey_data (aspect rid : String) :
    (uploadKey aspect rid).data =
      aspect.data ++ '/' :: (rid.data ++ ['.', 'm', 'p', '4']) := by
  show ((aspect ++ "/" ++ rid) ++ ".mp4").data = _
  rw [string_data_append, string_data_append, string_data_append]
  rw [show ("/" : String).data = ['/'] from rfl,
      show (".mp4" : String).data = ['.', 'm', 'p', '4'] from rfl]
  simp

theorem uploadKey_no_comma (aspect rid : String) (ha : ',' ∉ aspect.data)
    (hr : ',' ∉ rid.data) : ',' ∉ (uploadKey aspect rid).data := by
  intro hmem
  rw [uploadKey_data] at hmem
  rcases List.mem_append.mp hmem with h | h
  · exact ha h
  · rcases List.mem_cons.mp h with h | h
    · exact absurd h (by decide)
    · rcases List.mem_append.mp h with h | h
      · exact hr h
      · exact absurd h (by decide)

theorem uploadVideoPipeline_success (cfg : ApiConfig) (env : UploadVideoEnv)
    (rec : VideoRecord) (aspect purl : String)
    (hTemp : env.createTempOk = true)
    (hProbe : getVideoAspectRatio env.probe = .ok aspect)
    (hRemux : env.remuxOk = true) (hOpen : env.openFastStartOk = true)
    (hPut : env.putObjectOk = true) (hUpd : env.updateVideoOk = true)
    (hBucket : ',' ∉ cfg.s3Bucket.data)
    (hKey : ',' ∉ (uploadKey aspect env.randomID).data)
    (hSign : env.presign cfg.s3Bucket (uploadKey aspect env.randomID) = .ok purl) :
    uploadVideoPipeline cfg env rec =
      ⟨[.json 200 { rec with videoURL := some purl }],
       [.createTemp, .copyToTemp env.bodySize, .seekTemp, .probe, .remux,
        .openFastStart, .putObject cfg.s3Bucket (uploadKey aspect env.randomID),
        .updateVideo { rec with videoURL := some (encodeLocator cfg.s3Bucket (uploadKey aspect env.randomID)) },
        .presign cfg.s3Bucket (uploadKey aspect env.randomID) 10]⟩ := by
  have hdec := decodeLocator_encodeLocator cfg.s3Bucket
    (uploadKey aspect env.randomID) hBucket hKey
  simp [uploadVideoPipeline, dbVideoToSignedVideo, hTemp, hProbe, hRemux, hOpen,
    hPut, hUpd, hdec, hSign]

theorem uploadVideoPipeline_error_surfaced (cfg : ApiConfig)
    (env : UploadVideoEnv) (rec : VideoRecord)
    (h : env.createTempOk = false ∨ getVideoAspectRatio env.probe = .error () ∨
      env.remuxOk = false ∨ env.openFastStartOk = false ∨
      env.updateVideoOk = false) :
    (uploadVideoPipeline cfg env rec).hasErrorResponse = true := by
  by_cases hT : env.createTempOk = true
  · cases hP : getVideoAspectRatio env.probe with
    | error e =>
      simp [uploadVideoPipeline, hT, hP, Trace.hasErrorResponse,
        Response.isErrorResponse]
    | ok aspect =>
      by_cases hR : env.remuxOk = true
      · by_cases hO : env.openFastStartOk = true
        · by_cases hU : env.updateVideoOk = true
          · rcases h with h | h | h | h | h
            · rw [hT] at h; cases h
            · rw [hP] at h; cases h
            · rw [hR] at h; cases h
            · rw [hO] at h; cases h
            · rw [hU] at h; cases h
          · simp [uploadVideoPipeline, hT, hP, hR, hO, hU,
              Trace.hasErrorResponse, Response.isErrorResponse,
              List.any_append]
        · simp [uploadVideoPipeline, hT, hP, hR, hO, Trace.hasErrorResponse,
            Response.isErrorResponse]
      · simp [uploadVideoPipeline, hT, hP, hR, Trace.hasErrorResponse,
          Response.isErrorResponse]
  · simp [uploadVideoPipeline, hT, Trace.hasErrorResponse,
      Response.isErrorResponse]

theorem uploadVideoPipeline_put_error_mem (cfg : ApiConfig)
    (env : UploadVideoEnv) (rec : VideoRecord) (aspect : String)
    (hTemp : env.createTempOk = true)
    (hProbe : getVideoAspectRatio env.probe = .ok aspect)
    (hRemux : env.remuxOk = true) (hOpen : env.openFastStartOk = true)
    (hPut : env.putObjectOk = false) :
    Response.error 500 "Could not put object to S3" ∈
      (uploadVideoPipeline cfg env rec).responses := by
  by_cases hU : env.updateVideoOk = true
  · rcases hd : dbVideoToSignedVideo env.presign
      { rec with videoURL := some (encodeLocator cfg.s3Bucket (uploadKey aspect env.randomID)) }
      with ⟨res, evs⟩
    cases res <;>
      simp [uploadVideoPipeline, hTemp, hProbe, hRemux, hOpen, hPut, hU, hd]
  · simp [uploadVideoPipeline, hTemp, hProbe, hRemux, hOpen, hPut, hU]

theorem uploadVideoPipeline_putObject_mem (cfg : ApiConfig)
    (env : UploadVideoEnv) (rec : VideoRecord) (aspect : String)
    (hTemp : env.createTempOk = true)
    (hProbe : getVideoAspectRatio env.probe = .ok aspect)
    (hRemux : env.remuxOk = true) (hOpen : env.openFastStartOk = true) :
    Event.putObject cfg.s3Bucket (uploadKey aspect env.randomID) ∈
      (uploadVideoPipeline cfg env rec).events := by
  by_cases hU : env.updateVideoOk = true
  · rcases hd : dbVideoToSignedVideo env.presign
      { rec with videoURL := some (encodeLocator cfg.s3Bucket (uploadKey aspect env.randomID)) }
      with ⟨res, evs⟩
    cases res <;>
      simp [uploadVideoPipeline, hTemp, hProbe, hRemux, hOpen, hU, hd]
  · simp [uploadVideoPipeline, hTemp, hProbe, hRemux, hOpen, hU]

/-- A concrete configuration used by the concrete-execution theorems. -/
def cfgT : ApiConfig :=
  { s3Bucket := "tubely", s3Region := "region", assetsRoot := "assets" }

/-- A concrete stored video record owned by user 7. -/
def recT : VideoRecord :=
  { id := 1, createdAt := 2, updatedAt := 3, thumbnailURL := none,
    videoURL := none, userID := 7, title := "t" }

/-- A video-upload environment in which every collaborator call succeeds
    (the probe reports an empty stream list, so no rational arithmetic is
    needed to evaluate traces). -/
def envOkV : UploadVideoEnv :=
  { pathVideoID := .ok 1, bearerToken := .ok "tok", jwtUserID := .ok 7,
    dbRecord := .ok recT, formFile := .ok "video/mp4", bodySize := 5,
    copyErr := false, seekErr := false, createTempOk := true,
    probe := .streams [], randErr := false, randomID := "rid",
    remuxOk := true, openFastStartOk := true, putObjectOk := true,
    updateVideoOk := true,
    presign := fun b k => .ok ("signed:" ++ b ++ "/" ++ k) }

/-- `envOkV` with a failing S3 PutObject call. -/
def envPutFail : UploadVideoEnv := { envOkV with putObjectOk := false }

/-- `envOkV` with a request body one byte over 1 GiB. -/
def envBig : UploadVideoEnv := { envOkV with bodySize := 2 ^ 30 + 1 }

/-- `envOkV` with a failing `io.Copy` into the scratch file. -/
def envCopyFail : UploadVideoEnv := { envOkV with copyErr := true }

/-- `envOkV` with an upper-case declared content type. -/
def envUpperCt : UploadVideoEnv := { envOkV with formFile := .ok "VIDEO/MP4" }

/-- `envOkV` with a rejected declared content type. -/
def envWrongCt : UploadVideoEnv := { envOkV with formFile := .ok "text/plain" }

/-- `envOkV` with a failing ffprobe run. -/
def envProbeFail : UploadVideoEnv := { envOkV with probe := .runError }

/-- `envOkV` authenticated as user 9, who does not own `recT`. -/
def envMmV : UploadVideoEnv := { envOkV with jwtUserID := .ok 9 }

/-- A thumbnail-upload environment authenticated as user 9, who does not own
    `recT`; all collaborator calls succeed. -/
def envMmT : ThumbnailEnv :=
  { pathVideoID := .ok 1, bearerToken := .ok "tok", jwtUserID := .ok 9,
    parseFormOk := true, formFile := .ok "image/png", dbRecord := .ok recT,
    createFileOk := true, copyOk := true, updateVideoOk := true }

/-- C1: the source handles a PutObject failure with `respondWithError` but
    no `return`, so the handler still persists the new locator via
    `UpdateVideo` and then writes a success response.  This contradicts the
    claim (and spec steps 7-8), which require that `update_video` never be
    invoked with the new locator after a failed upload: with every other
    collaborator succeeding and PutObject failing, the trace below shows the
    error response FOLLOWED by persistence of `"tubely,/rid.mp4"` and a 200
    response. -/
theorem putObjectFailureStillPersistsLocator :
    (handlerUploadVideo cfgT envPutFail).responses =
      [.error 500 "Could not put object to S3",
       .json 200 { recT with videoURL := some "signed:tubely//rid.mp4" }] ∧
    Event.updateVideo { recT with videoURL := some "tubely,/rid.mp4" } ∈
      (handlerUploadVideo cfgT envPutFail).events := by decide

/-- C2 (amended): on an ownership mismatch after successful authentication
    and record lookup, both handlers respond with status 401 (Unauthorized,
    `http.StatusUnauthorized`) and message "Not the video owner" — not 403
    Forbidden as claimed — and no handler file I/O has occurred: the video
    handler has performed no events at all, the thumbnail handler only the
    framework's multipart parse and file-header read. -/
theorem ownershipMismatchRespondsUnauthorized :
    (∀ (cfg : ApiConfig) (env : UploadVideoEnv) (vid userID : Nat)
      (tok : String) (rec : VideoRecord),
      env.pathVideoID = .ok vid → env.bearerToken = .ok tok →
      env.jwtUserID = .ok userID → env.dbRecord = .ok rec →
      rec.userID ≠ userID →
      handlerUploadVideo cfg env = ⟨[.error 401 "Not the video owner"], []⟩ ∧
      ((handlerUploadVideo cfg env).events.all fun e => !e.isFileTouch) = true) ∧
    (∀ (cfg : ApiConfig) (env : ThumbnailEnv) (vid userID : Nat)
      (tok ct ext : String) (rec : VideoRecord),
      env.pathVideoID = .ok vid → env.bearerToken = .ok tok →
      env.jwtUserID = .ok userID → env.parseFormOk = true →
      env.formFile = .ok ct → getExtensionFromHeader ct = .ok ext →
      env.dbRecord = .ok rec → rec.userID ≠ userID →
      handlerUploadThumbnail cfg env =
        ⟨[.error 401 "Not the video owner"], [.parseForm, .formFileRead]⟩ ∧
      ((handlerUploadThumbnail cfg env).events.all fun e => !e.isFileTouch) = true) := by
  constructor
  · intro cfg env vid userID tok rec h1 h2 h3 h4 h5
    have hb : (rec.userID != userID) = true := by simpa using h5
    have hmain : handlerUploadVideo cfg env =
        ⟨[.error 401 "Not the video owner"], []⟩ := by
      simp [handlerUploadVideo, h1, h2, h3, h4, hb]
    exact ⟨hmain, by rw [hmain]; decide⟩
  · intro cfg env vid userID tok ct ext rec h1 h2 h3 h4 h5 h6 h7 h8
    have hb : (rec.userID != userID) = true := by simpa using h8
    have hmain : handlerUploadThumbnail cfg env =
        ⟨[.error 401 "Not the video owner"], [.parseForm, .formFileRead]⟩ := by
      simp [handlerUploadThumbnail, h1, h2, h3, h4, h5, h6, h7, hb]
    exact ⟨hmain, by rw [hmain]; decide⟩

theorem ownershipMismatchRespondsUnauthorizedWitness :
    handlerUploadVideo cfgT envMmV = ⟨[.error 401 "Not the video owner"], []⟩ ∧
    ((handlerUploadVideo cfgT envMmV).events.all fun e => !e.isFileTouch) = true :=
  ownershipMismatchRespondsUnauthorized.1 cfgT envMmV 1 9 "tok" recT
    rfl rfl rfl rfl (by decide)

theorem ownershipMismatchNot403 :
    (handlerUploadThumbnail cfgT envMmT).responses =
      [.error 401 "Not the video owner"] ∧
    ((handlerUploadThumbnail cfgT envMmT).responses.all
      fun r => r.status != 403) = true ∧
    (handlerUploadVideo cfgT envMmV).responses =
      [.error 401 "Not the video owner"] ∧
    ((handlerUploadVideo cfgT envMmV).responses.all
      fun r => r.status != 403) = true := by decide

/-- C3 (amended): a video-upload request is rejected with BadRequest (400,
    "Could not verify filetype as mp4"), without the probe or remux steps
    being invoked, whenever the PARSED media type — `mime.ParseMediaType`
    lowercases the type and strips parameters before the handler's
    case-sensitive comparison — differs from "video/mp4" or parsing fails.
    The original claim (rejection whenever the DECLARED header differs
    case-sensitively from "video/mp4") is refuted by
    `uppercaseContentTypeAccepted`. -/
theorem parsedContentTypeMismatchRejected (cfg : ApiConfig)
    (env : UploadVideoEnv) (vid userID : Nat) (tok ct : String)
    (rec : VideoRecord)
    (h1 : env.pathVideoID = .ok vid) (h2 : env.bearerToken = .ok tok)
    (h3 : env.jwtUserID = .ok userID) (h4 : env.dbRecord = .ok rec)
    (h5 : rec.userID = userID) (h6 : env.formFile = .ok ct)
    (h7 : (parseMediaType ct).1 ≠ "video/mp4" ∨ (parseMediaType ct).2 = true) :
    handlerUploadVideo cfg env =
      ⟨[.error 400 "Could not verify filetype as mp4"], [.formFileRead]⟩ ∧
    Event.probe ∉ (handlerUploadVideo cfg env).events ∧
    Event.remux ∉ (handlerUploadVideo cfg env).events := by
  have hcond : ((parseMediaType ct).1 != "video/mp4" ||
      (parseMediaType ct).2) = true := by
    rcases h7 with h | h
    · simp [h]
    · simp [h]
  have hmain : handlerUploadVideo cfg env =
      ⟨[.error 400 "Could not verify filetype as mp4"], [.formFileRead]⟩ := by
    simp [handlerUploadVideo, h1, h2, h3, h4, h5, h6, hcond]
  refine ⟨hmain, ?_, ?_⟩ <;> rw [hmain] <;> decide

theorem parsedContentTypeMismatchRejectedWitness :
    handlerUploadVideo cfgT envWrongCt =
      ⟨[.error 400 "Could not verify filetype as mp4"], [.formFileRead]⟩ ∧
    Event.probe ∉ (handlerUploadVideo cfgT envWrongCt).events ∧
    Event.remux ∉ (handlerUploadVideo cfgT envWrongCt).events :=
  parsedContentTypeMismatchRejected cfgT envWrongCt 1 7 "tok" "text/plain" recT
    rfl rfl rfl rfl rfl rfl (Or.inl (by decide))

theorem uppercaseContentTypeAccepted :
    ("VIDEO/MP4" : String) ≠ "video/mp4" ∧
    Event.probe ∈ (handlerUploadVideo cfgT envUpperCt).events ∧
    ((handlerUploadVideo cfgT envUpperCt).responses.all
      fun r => r.status != 400) = true := by decide

/-- C4 (amended): once the upload request has passed validation, failures of
    the scratch-file creation, the probe, the remux, the remuxed-file open
    and the record-store update are each surfaced as an error response, and a
    failed PutObject is reported with its own error response (though, per C1,
    it does not stop the handler).  However failures of the stream copy
    (`io.Copy`), the rewind (`Seek`) and the random-identifier read
    (`rand.Read`) are silently discarded: the handler's behaviour does not
    depend on them at all, refuting the original claim that every
    collaborator failure is surfaced (see `copyFailureSuppressed`). -/
theorem collaboratorFailureHandling (cfg : ApiConfig) (env : UploadVideoEnv)
    (vid userID : Nat) (tok ct : String) (rec : VideoRecord)
    (h1 : env.pathVideoID = .ok vid) (h2 : env.bearerToken = .ok tok)
    (h3 : env.jwtUserID = .ok userID) (h4 : env.dbRecord = .ok rec)
    (h5 : rec.userID = userID) (h6 : env.formFile = .ok ct)
    (h7 : parseMediaType ct = ("video/mp4", false)) :
    ((env.createTempOk = false ∨ getVideoAspectRatio env.probe = .error () ∨
      env.remuxOk = false ∨ env.openFastStartOk = false ∨
      env.updateVideoOk = false) →
      (handlerUploadVideo cfg env).hasErrorResponse = true) ∧
    (∀ aspect : String, getVideoAspectRatio env.probe = .ok aspect →
      env.createTempOk = true → env.remuxOk = true →
      env.openFastStartOk = true → env.putObjectOk = false →
      Response.error 500 "Could not put object to S3" ∈
        (handlerUploadVideo cfg env).responses) ∧
    (∀ b1 b2 b3 : Bool,
      handlerUploadVideo cfg { env with copyErr := b1, seekErr := b2, randErr := b3 } =
        handlerUploadVideo cfg env) := by
  have hred := handlerUploadVideo_to_pipeline cfg env vid userID tok ct rec
    h1 h2 h3 h4 h5 h6 h7
  refine ⟨?_, ?_, ?_⟩
  · intro h
    rw [hred]
    exact uploadVideoPipeline_error_surfaced cfg env rec h
  · intro aspect hP hT hR hO hPut
    rw [hred]
    exact uploadVideoPipeline_put_error_mem cfg env rec aspect hT hP hR hO hPut
  · intro b1 b2 b3
    rfl

theorem collaboratorFailureHandlingWitness :
    (handlerUploadVideo cfgT envProbeFail).hasErrorResponse = true :=
  (collaboratorFailureHandling cfgT envProbeFail 1 7 "tok" "video/mp4" recT
    rfl rfl rfl rfl rfl rfl (by decide)).1 (Or.inr (Or.inl rfl))

theorem copyFailureSuppressed :
    envCopyFail.copyErr = true ∧
    (handlerUploadVideo cfgT envCopyFail).hasErrorResponse = false ∧
    (handlerUploadVideo cfgT envCopyFail).responses.map Response.status = [200] := by
  decide

/-- C5: the 1 GiB cap is NOT in force: the source calls
    `http.MaxBytesReader(w, r.Body, int64(uploadLimit))` but discards the
    returned wrapped reader (it is never assigned to `r.Body`), so a body of
    `2^30 + 1` bytes — one byte over the limit — is still buffered to the
    scratch file in full and the upload succeeds, contradicting the claim
    that ingest fails.  The call to the limiter makes the intended cap clear,
    so this is a code bug rather than a spec error. -/
theorem uploadSizeCapNotEnforced :
    uploadLimit = 2 ^ 30 ∧
    envBig.bodySize = 2 ^ 30 + 1 ∧
    Event.copyToTemp (2 ^ 30 + 1) ∈ (handlerUploadVideo cfgT envBig).events ∧
    (handlerUploadVideo cfgT envBig).responses.map Response.status = [200] := by
  decide

/-- C6 (amended): with float64 semantics modelled bit-exactly, the
    classifier computes `ratio = width / height` of the first stream in
    float64 and returns "landscape" when the float64 comparison
    `|ratio - 16/9| < 0.1` holds (checked first), "portrait" when
    `|ratio - 9/16| < 0.1`, and "other" otherwise; 1920x1080 classifies
    landscape, 1080x1920 portrait, 1000x1000 other; the ratio
    `16/9 - 0.099` (width 15109, height 9000) classifies landscape; and an
    empty stream list yields the empty classification without error.  The
    comparison is strict, but the tolerance boundary is NOT observably
    exclusive: at the exact ratio `16/9 - 0.1` (width 151, height 90) the
    rounded `|ratio - 16/9|` lands just below the rounded tolerance, so the
    program classifies "landscape" rather than the claimed "other" (and
    likewise `9/16 - 0.1` = 37/80 classifies "portrait"); see the
    counterexample `boundaryRatioClassifiedLandscape`. -/
theorem aspectRatioClassifierFloatBehavior :
    (∀ r : Dyadic,
      floatLt (floatAbs (floatSub r (divRound53 16 9))) (divRound53 1 10) = true →
      classifyRatioFloat r = "landscape") ∧
    (∀ r : Dyadic,
      floatLt (floatAbs (floatSub r (divRound53 16 9))) (divRound53 1 10) = false →
      floatLt (floatAbs (floatSub r (divRound53 9 16))) (divRound53 1 10) = true →
      classifyRatioFloat r = "portrait") ∧
    (∀ r : Dyadic,
      floatLt (floatAbs (floatSub r (divRound53 16 9))) (divRound53 1 10) = false →
      floatLt (floatAbs (floatSub r (divRound53 9 16))) (divRound53 1 10) = false →
      classifyRatioFloat r = "other") ∧
    (∀ (w hgt : Int) (rest : List StreamDim),
      getVideoAspectRatioF (.streams (⟨w, hgt⟩ :: rest)) =
        .ok (classifyRatioFloat (floatDivInt w hgt))) ∧
    getVideoAspectRatioF (.streams [⟨1920, 1080⟩]) = .ok "landscape" ∧
    getVideoAspectRatioF (.streams [⟨1080, 1920⟩]) = .ok "portrait" ∧
    getVideoAspectRatioF (.streams [⟨1000, 1000⟩]) = .ok "other" ∧
    ((15109 : ℚ) / 9000 = 16/9 - 99/1000 ∧
      getVideoAspectRatioF (.streams [⟨15109, 9000⟩]) = .ok "landscape") ∧
    ((37 : ℚ) / 80 = 9/16 - 1/10 ∧
      getVideoAspectRatioF (.streams [⟨37, 80⟩]) = .ok "portrait") ∧
    getVideoAspectRatioF (.streams []) = .ok "" := by
  refine ⟨?_, ?_, ?_, ?_, by decide, by decide, by decide,
    ⟨by norm_num, by decide⟩, ⟨by norm_num, by decide⟩, rfl⟩
  · intro r h
    simp [classifyRatioFloat, h]
  · intro r h1 h2
    simp [classifyRatioFloat, h1, h2]
  · intro r h1 h2
    simp [classifyRatioFloat, h1, h2]
  · intro w hgt rest
    rfl

theorem aspectRatioClassifierFloatBehaviorWitness :
    classifyRatioFloat (floatDivInt 1920 1080) = "landscape" :=
  aspectRatioClassifierFloatBehavior.1 (floatDivInt 1920 1080) (by decide)

/-- C6 counterexample: the original claim asserts the tolerance bound is
    exclusive, so that a ratio of exactly `16/9 - 0.1` classifies as
    "other".  A stream of width 151 and height 90 has exactly that ratio,
    yet the program's float64 arithmetic classifies it "landscape":
    `fl(151/90) - fl(16/9)` has magnitude one ulp below `fl(0.1)`. -/
theorem boundaryRatioClassifiedLandscape :
    (151 : ℚ) / 90 = 16/9 - 1/10 ∧
    getVideoAspectRatioF (.streams [⟨151, 90⟩]) = .ok "landscape" ∧
    ("landscape" : String) ≠ "other" :=
  ⟨by norm_num, by decide, by decide⟩

/-- C7: for every (container, key) pair in which neither component contains
    the separator ",", decoding the encoded locator `"<container>,<key>"`
    returns the original pair. -/
theorem locatorRoundTrip (container key : String)
    (hc : ',' ∉ container.data) (hk : ',' ∉ key.data) :
    decodeLocator (encodeLocator container key) = .ok (container, key) :=
  decodeLocator_encodeLocator container key hc hk

theorem locatorRoundTripWitness :
    decodeLocator (encodeLocator "tubely" "landscape/rid.mp4") =
      .ok ("tubely", "landscape/rid.mp4") :=
  locatorRoundTrip "tubely" "landscape/rid.mp4" (by decide) (by decide)

/-- C8: decoding fails with the Malformed-Locator error ("Malformed video
    URL") for every locator string whose comma count differs from one (i.e.
    whose split does not yield exactly two parts), while an absent (`none`)
    locator short-circuits `dbVideoToSignedVideo` without error, returning
    the record unchanged with no presign call. -/
theorem locatorDecodeMalformed :
    (∀ locator : String, locator.data.count ',' ≠ 1 →
      decodeLocator locator = .error "Malformed video URL") ∧
    (∀ (presign : String → String → Except Unit String) (video : VideoRecord),
      video.videoURL = none →
      dbVideoToSignedVideo presign video = (.ok video, [])) := by
  constructor
  · intro locator h
    have hlen : (goSplitComma locator).length = locator.data.count ',' + 1 := by
      simp [goSplitComma, goSplitOn_length]
    have h2 : (goSplitComma locator).length ≠ 2 := by omega
    simp [decodeLocator, h2]
  · intro presign video hv
    simp [dbVideoToSignedVideo, hv]

theorem locatorDecodeMalformedWitness :
    decodeLocator "a,b,c" = .error "Malformed video URL" ∧
    decodeLocator "nocomma" = .error "Malformed video URL" :=
  ⟨locatorDecodeMalformed.1 "a,b,c" (by decide),
   locatorDecodeMalformed.1 "nocomma" (by decide)⟩

/-- C9: on a fully successful upload, the record persisted through
    `UpdateVideo` carries the opaque locator
    `encodeLocator cfg.s3Bucket key = "<container>,<key>"` in its
    video-locator field — never the signed URL — while the response is the
    record with the presigned URL (requested from the just-persisted
    locator's container/key with 10-minute validity) substituted in. -/
theorem persistLocatorRespondSignedURL (cfg : ApiConfig)
    (env : UploadVideoEnv) (vid userID : Nat)
    (tok ct aspect purl : String) (rec : VideoRecord)
    (h1 : env.pathVideoID = .ok vid) (h2 : env.bearerToken = .ok tok)
    (h3 : env.jwtUserID = .ok userID) (h4 : env.dbRecord = .ok rec)
    (h5 : rec.userID = userID) (h6 : env.formFile = .ok ct)
    (h7 : parseMediaType ct = ("video/mp4", false))
    (hTemp : env.createTempOk = true)
    (hProbe : getVideoAspectRatio env.probe = .ok aspect)
    (hRemux : env.remuxOk = true) (hOpen : env.openFastStartOk = true)
    (hPut : env.putObjectOk = true) (hUpd : env.updateVideoOk = true)
    (hBucket : ',' ∉ cfg.s3Bucket.data) (hRid : ',' ∉ env.randomID.data)
    (hSign : env.presign cfg.s3Bucket (uploadKey aspect env.randomID) = .ok purl) :
    handlerUploadVideo cfg env =
      ⟨[.json 200 { rec with videoURL := some purl }],
       [.formFileRead, .createTemp, .copyToTemp env.bodySize, .seekTemp,
        .probe, .remux, .openFastStart,
        .putObject cfg.s3Bucket (uploadKey aspect env.randomID),
        .updateVideo { rec with videoURL := some (encodeLocator cfg.s3Bucket (uploadKey aspect env.randomID)) },
        .presign cfg.s3Bucket (uploadKey aspect env.randomID) 10]⟩ := by
  have hKey := uploadKey_no_comma aspect env.randomID
    (getVideoAspectRatio_ok_no_comma env.probe aspect hProbe) hRid
  rw [handlerUploadVideo_to_pipeline cfg env vid userID tok ct rec
        h1 h2 h3 h4 h5 h6 h7,
      uploadVideoPipeline_success cfg env rec aspect purl hTemp hProbe hRemux
        hOpen hPut hUpd hBucket hKey hSign]

theorem persistLocatorRespondSignedURLWitness :
    handlerUploadVideo cfgT envOkV =
      ⟨[.json 200 { recT with videoURL := some "signed:tubely//rid.mp4" }],
       [.formFileRead, .createTemp, .copyToTemp 5, .seekTemp,
        .probe, .remux, .openFastStart,
        .putObject "tubely" (uploadKey "" "rid"),
        .updateVideo { recT with videoURL := some (encodeLocator "tubely" (uploadKey "" "rid")) },
        .presign "tubely" (uploadKey "" "rid") 10]⟩ :=
  persistLocatorRespondSignedURL cfgT envOkV 1 7 "tok" "video/mp4" ""
    "signed:tubely//rid.mp4" recT rfl rfl rfl rfl rfl rfl (by decide)
    rfl rfl rfl rfl rfl rfl (by decide) (by decide) (by decide)

/-- C10: when the probe parses successfully but reports no streams, the
    classifier returns the empty string ("" — not "other"), and the storage
    key the handler derives and uploads under is `"/<random>.mp4"`: the
    classification segment is empty, so the key begins with the path
    separator rather than a named classification prefix. -/
theorem emptyStreamListEmptyClassificationKey (cfg : ApiConfig)
    (env : UploadVideoEnv) (vid userID : Nat) (tok ct : String)
    (rec : VideoRecord)
    (h1 : env.pathVideoID = .ok vid) (h2 : env.bearerToken = .ok tok)
    (h3 : env.jwtUserID = .ok userID) (h4 : env.dbRecord = .ok rec)
    (h5 : rec.userID = userID) (h6 : env.formFile = .ok ct)
    (h7 : parseMediaType ct = ("video/mp4", false))
    (hTemp : env.createTempOk = true)
    (hProbe0 : env.probe = .streams [])
    (hRemux : env.remuxOk = true) (hOpen : env.openFastStartOk = true) :
    getVideoAspectRatio (.streams []) = .ok "" ∧
    ("" : String) ≠ "other" ∧
    Event.putObject cfg.s3Bucket (uploadKey "" env.randomID) ∈
      (handlerUploadVideo cfg env).events ∧
    (uploadKey "" env.randomID).data.head? = some '/' := by
  have hProbe : getVideoAspectRatio env.probe = .ok "" := by
    rw [hProbe0]
    rfl
  refine ⟨rfl, by decide, ?_, ?_⟩
  · rw [handlerUploadVideo_to_pipeline cfg env vid userID tok ct rec
        h1 h2 h3 h4 h5 h6 h7]
    exact List.mem_cons_of_mem _
      (uploadVideoPipeline_putObject_mem cfg env rec "" hTemp hProbe hRemux hOpen)
  · rw [uploadKey_data]
    rfl

theorem emptyStreamListEmptyClassificationKeyWitness :
    getVideoAspectRatio (.streams []) = .ok "" ∧
    ("" : String) ≠ "other" ∧
    Event.putObject cfgT.s3Bucket (uploadKey "" envOkV.randomID) ∈
      (handlerUploadVideo cfgT envOkV).events ∧
    (uploadKey "" envOkV.randomID).data.head? = some '/' :=
  emptyStreamListEmptyClassificationKey cfgT envOkV 1 7 "tok" "video/mp4" recT
    rfl rfl rfl rfl rfl rfl (by decide) rfl rfl rfl rfl
